import Mathlib

/-!
Verification of `src/check_rust.py` (WriteMagic Rust environment check script).

The script is shallow-embedded as pure Lean functions.  A call to
`subprocess.run` is modelled by an explicit argument of type
`Except String ProcOutcome`: `Except.ok r` is a successful launch that
produced exit code `r.returncode` with captured streams `r.stdout` and
`r.stderr`, while `Except.error e` is a launch failure (the Python
exception, carrying its message `e`).  Every `print(...)` call is recorded
as one entry of a `List String` of print events, in order.  Totality of the
Lean functions reflects that the Python code catches every exception inside
`run_command` and that `main` never raises.
-/

/-- One completed child process: exit code and captured output streams,
as produced by `subprocess.run(cmd, capture_output=True, text=True, ...)`. -/
structure ProcOutcome where
  returncode : Int
  stdout : String
  stderr : String
deriving DecidableEq, Repr

/-- The separator `"-" * 50` printed by the script. -/
def sep : String := String.mk (List.replicate 50 '-')

/-- The bar `"=" * 40` printed by `main`. -/
def eqBar : String := String.mk (List.replicate 40 '=')

/-- Embedding of `run_command(cmd, description)` from `src/check_rust.py`
(lines 6-21).  `launch` models the behaviour of `subprocess.run` for this
invocation.  Returns the list of print events and the boolean result:
on a successful launch it prints the return code, then the `STDOUT:` and
`STDERR:` sections only when the captured text is non-empty (Python string
truthiness), then the separator, and returns `returncode == 0`; on a launch
failure it prints the error message and the separator and returns `false`. -/
def run_command (cmd : List String) (description : String)
    (launch : Except String ProcOutcome) : List String × Bool :=
  let header := ["Running: " ++ description,
                 "Command: " ++ String.intercalate " " cmd]
  match launch with
  | Except.ok result =>
      (header
        ++ ["Return code: " ++ toString result.returncode]
        ++ (if result.stdout = "" then [] else ["STDOUT:\n" ++ result.stdout])
        ++ (if result.stderr = "" then [] else ["STDERR:\n" ++ result.stderr])
        ++ [sep],
       result.returncode == 0)
  | Except.error e =>
      (header ++ ["Error running command: " ++ e, sep], false)

/-- The literal command list declared in `main` (lines 32-38). -/
def commands : List (List String × String) :=
  [(["rustup", "show"], "Check Rust toolchain"),
   (["cargo", "--version"], "Check Cargo version"),
   (["cargo", "check", "--workspace"], "Cargo check workspace"),
   (["cargo", "test", "-p", "writemagic-shared", "--lib"], "Test shared domain"),
   (["cargo", "test", "-p", "writemagic-ai", "--lib"], "Test AI domain")]

/-- The `for cmd, desc in commands` loop of `main` (lines 40-43): runs
`run_command` on every entry in order and appends `(desc, success)` to the
results list.  `env` assigns to each command its modelled subprocess
behaviour. -/
def runLoop (env : List String → String → Except String ProcOutcome) :
    List (List String × String) → List String × List (String × Bool)
  | [] => ([], [])
  | (cmd, desc) :: rest =>
      let this := run_command cmd desc (env cmd desc)
      let rem := runLoop env rest
      (this.1 ++ rem.1, (desc, this.2) :: rem.2)

/-- The summary block of `main` (lines 45-49): for each recorded result a
pass/fail marker with its description, in original order. -/
def summaryLines (results : List (String × Bool)) : List String :=
  ["\nSUMMARY:", eqBar]
    ++ results.map (fun p => (if p.2 then "✓ PASS" else "✗ FAIL") ++ ": " ++ p.1)

/-- `main` generalised over the command list: header prints (lines 24-30),
the run loop, and the summary.  The second component is the process exit
status: the script never calls `sys.exit` and `main` never raises, so the
Python interpreter exits with status 0. -/
def mainWith (cmds : List (List String × String)) (cwd : String)
    (env : List String → String → Except String ProcOutcome) :
    List String × Nat :=
  let header := ["WriteMagic Rust Environment Check", eqBar,
                 "Current working directory: " ++ cwd,
                 "Target directory: /home/niko/writemagic", sep]
  let run := runLoop env cmds
  (header ++ run.1 ++ summaryLines run.2, 0)

/-- Embedding of `main()` (lines 23-49): `mainWith` applied to the fixed
literal command list. -/
def main_run (cwd : String)
    (env : List String → String → Except String ProcOutcome) :
    List String × Nat :=
  mainWith commands cwd env

/-- `startsWithChars p l` decides whether the character list `p` is an
initial segment of `l`. -/
def startsWithChars : List Char → List Char → Bool
  | [], _ => true
  | _ :: _, [] => false
  | a :: as, b :: bs => a == b && startsWithChars as bs

/-- `hasLineStarting p out` decides whether some print event in `out` starts
with the text `p`. -/
def hasLineStarting (p : String) (out : List String) : Bool :=
  out.any (fun l => startsWithChars p.data l.data)

/-- `charMismatch p l` holds when `p` and `l` disagree at some position that
both of them reach. -/
def charMismatch : List Char → List Char → Bool
  | a :: as, b :: bs => a != b || charMismatch as bs
  | _, _ => false

/-- Modelled child-process behaviour for the end-to-end scenario of the
spec: the command `["true"]` exits 0, every other command exits 1, both
with empty captured streams. -/
def pairEnv : List String → String → Except String ProcOutcome :=
  fun cmd _ =>
    if cmd = ["true"] then Except.ok ⟨0, "", ""⟩ else Except.ok ⟨1, "", ""⟩

/-! ### Helper lemmas about `startsWithChars` and `sep` -/

lemma startsWithChars_refl : ∀ l : List Char, startsWithChars l l = true := by
  intro l
  induction l with
  | nil => rfl
  | cons a as ih => simp [startsWithChars, ih]

lemma startsWithChars_append_of : ∀ p l r : List Char,
    startsWithChars p l = true → startsWithChars p (l ++ r) = true := by
  intro p
  induction p with
  | nil => intro l r _; rfl
  | cons a as ih =>
      intro l r h
      cases l with
      | nil => simp [startsWithChars] at h
      | cons b bs =>
          simp [startsWithChars] at h ⊢
          exact ⟨h.1, ih bs r h.2⟩

/-- Whole-text self-match: `p` starts `p ++ r`. -/
lemma startsWithChars_self_append (p r : List Char) :
    startsWithChars p (p ++ r) = true :=
  startsWithChars_append_of p p r (startsWithChars_refl p)

lemma startsWithChars_eq_false_of_mismatch : ∀ p l r : List Char,
    charMismatch p l = true → startsWithChars p (l ++ r) = false := by
  intro p
  induction p with
  | nil => intro l r h; cases l <;> simp [charMismatch] at h
  | cons a as ih =>
      intro l r h
      cases l with
      | nil => simp [charMismatch] at h
      | cons b bs =>
          simp [charMismatch] at h
          rcases h with h | h
          · simp [startsWithChars, h]
          · by_cases hab : a = b
            · simp [startsWithChars, hab, ih bs r h]
            · simp [startsWithChars, hab]

/-- A string whose first character is not a dash is not the separator. -/
lemma ne_sep_of_head (s : String) (h : s.data.head? ≠ some '-') : s ≠ sep := by
  intro he
  exact h (by rw [he]; rfl)

lemma running_ne_sep (d : String) : "Running: " ++ d ≠ sep := by
  apply ne_sep_of_head
  rw [String.data_append]
  intro h
  simp [show "Running: ".data = 'R' :: "unning: ".data from rfl] at h

lemma command_ne_sep (d : String) : "Command: " ++ d ≠ sep := by
  apply ne_sep_of_head
  rw [String.data_append]
  intro h
  simp [show "Command: ".data = 'C' :: "ommand: ".data from rfl] at h

lemma returncode_ne_sep (d : String) : "Return code: " ++ d ≠ sep := by
  apply ne_sep_of_head
  rw [String.data_append]
  intro h
  simp [show "Return code: ".data = 'R' :: "eturn code: ".data from rfl] at h

lemma stdout_ne_sep (d : String) : "STDOUT:\n" ++ d ≠ sep := by
  apply ne_sep_of_head
  rw [String.data_append]
  intro h
  simp [show "STDOUT:\n".data = 'S' :: "TDOUT:\n".data from rfl] at h

lemma stderr_ne_sep (d : String) : "STDERR:\n" ++ d ≠ sep := by
  apply ne_sep_of_head
  rw [String.data_append]
  intro h
  simp [show "STDERR:\n".data = 'S' :: "TDERR:\n".data from rfl] at h

lemma error_ne_sep (d : String) : "Error running command: " ++ d ≠ sep := by
  apply ne_sep_of_head
  rw [String.data_append]
  intro h
  simp [show "Error running command: ".data = 'E' :: "rror running command: ".data from rfl] at h

/-! ### Claim theorems -/

/-- Claim C1: for every command that is successfully launched, `run_command`
returns `true` if and only if the child process exit code equals zero,
whatever the captured stdout and stderr contain. -/
theorem run_command_true_iff_exit_zero (cmd : List String) (desc : String)
    (r : ProcOutcome) :
    (run_command cmd desc (Except.ok r)).2 = true ↔ r.returncode = 0 := by
  simp [run_command]

/-- Claim C2: when launching the child process fails, the failure is caught
inside `run_command`: an error message carrying the exception text is
printed and the result is `false`.  (No exception can propagate: the
embedding of `run_command` is a total function.) -/
theorem run_command_launch_failure (cmd : List String) (desc : String)
    (e : String) :
    (run_command cmd desc (Except.error e)).2 = false ∧
      ("Error running command: " ++ e) ∈ (run_command cmd desc (Except.error e)).1 := by
  simp [run_command]

/-- Claim C3: for every command list, the loop of `main` invokes
`run_command` once per entry in declaration order with no short-circuit:
the results sequence is exactly the entry-wise list of
`(description, success)` pairs, so it has the same length as the command
list and preserves its order. -/
theorem runLoop_results (env : List String → String → Except String ProcOutcome)
    (cmds : List (List String × String)) :
    (runLoop env cmds).2 =
        cmds.map (fun p => (p.2, (run_command p.1 p.2 (env p.1 p.2)).2)) ∧
      (runLoop env cmds).2.length = cmds.length := by
  induction cmds with
  | nil => exact ⟨rfl, rfl⟩
  | cons hd tl ih =>
      obtain ⟨c, d⟩ := hd
      simp [runLoop, ih.1]

/-- Claim C4: for every run, whatever the environment makes each command do
(including failing all of them), `main` terminates normally and the process
exit status is 0. -/
theorem main_exit_zero (cwd : String)
    (env : List String → String → Except String ProcOutcome) :
    (main_run cwd env).2 = 0 := rfl

/-- Claim C7: `main` declares a fixed literal list of exactly five command
specifications, in this order: toolchain show, version check, workspace-wide
compile check, and two scoped unit-test invocations. -/
theorem commands_fixed_five :
    commands.length = 5 ∧
      commands = [(["rustup", "show"], "Check Rust toolchain"),
                  (["cargo", "--version"], "Check Cargo version"),
                  (["cargo", "check", "--workspace"], "Cargo check workspace"),
                  (["cargo", "test", "-p", "writemagic-shared", "--lib"],
                    "Test shared domain"),
                  (["cargo", "test", "-p", "writemagic-ai", "--lib"],
                    "Test AI domain")] :=
  ⟨rfl, rfl⟩

/-- Claim C8: `run_command` is deterministic: two invocations with the same
command, description and modelled child-process behaviour produce the same
success boolean (and the same print events). -/
theorem run_command_deterministic (cmd : List String) (desc : String)
    (l1 l2 : Except String ProcOutcome) (h : l1 = l2) :
    run_command cmd desc l1 = run_command cmd desc l2 := by
  rw [h]

/-- Witness for C8 at a concrete invocation. -/
theorem run_command_deterministic_witness :
    run_command ["rustup", "show"] "Check Rust toolchain"
        (Except.ok ⟨0, "", ""⟩) =
      run_command ["rustup", "show"] "Check Rust toolchain"
        (Except.ok ⟨0, "", ""⟩) :=
  run_command_deterministic ["rustup", "show"] "Check Rust toolchain"
    (Except.ok ⟨0, "", ""⟩) (Except.ok ⟨0, "", ""⟩) rfl

/-- A literal-headed line does not start with `p` when the literal and `p`
disagree within their common length. -/
lemma sw_lit_false (p lit rest : String)
    (h : charMismatch p.data lit.data = true) :
    startsWithChars p.data (lit ++ rest).data = false := by
  rw [String.data_append]
  exact startsWithChars_eq_false_of_mismatch _ _ _ h

/-- A literal-headed line starts with `p` when the literal itself does. -/
lemma sw_lit_true (p lit rest : String)
    (h : startsWithChars p.data lit.data = true) :
    startsWithChars p.data (lit ++ rest).data = true := by
  rw [String.data_append]
  exact startsWithChars_append_of _ _ _ h

/-- Claim C5 counterexample: on the launch-failure path, `run_command` does
not print the numeric exit code (there is none): no print event of the run
with a failing launch is of the form `"Return code: " ++ toString n`. -/
theorem run_command_failure_no_returncode_line :
    ¬ ∃ n : Int, ("Return code: " ++ toString n) ∈
      (run_command ["x"] "d" (Except.error "boom")).1 := by
  rintro ⟨n, h⟩
  have hsw : startsWithChars "Return code: ".data
      ("Return code: " ++ toString n).data = true := by
    rw [String.data_append]
    exact startsWithChars_self_append _ _
  simp [run_command] at h
  rcases h with h | h | h | h <;> rw [h] at hsw <;> revert hsw <;> decide

/-- Claim C5 as amended: every invocation of `run_command` prints the
description, the command line and the separator; when the launch succeeds it
additionally prints the numeric exit code, plus the captured stdout and
stderr sections when those are non-empty; when the launch fails it prints an
error message instead of an exit code. -/
theorem run_command_prints (cmd : List String) (desc : String)
    (launch : Except String ProcOutcome) :
    ("Running: " ++ desc) ∈ (run_command cmd desc launch).1 ∧
    ("Command: " ++ String.intercalate " " cmd) ∈ (run_command cmd desc launch).1 ∧
    sep ∈ (run_command cmd desc launch).1 ∧
    (∀ r, launch = Except.ok r →
      ("Return code: " ++ toString r.returncode) ∈ (run_command cmd desc launch).1 ∧
      (r.stdout ≠ "" → ("STDOUT:\n" ++ r.stdout) ∈ (run_command cmd desc launch).1) ∧
      (r.stderr ≠ "" → ("STDERR:\n" ++ r.stderr) ∈ (run_command cmd desc launch).1)) ∧
    (∀ e, launch = Except.error e →
      ("Error running command: " ++ e) ∈ (run_command cmd desc launch).1) := by
  cases launch with
  | ok r =>
      refine ⟨by simp [run_command], by simp [run_command], by simp [run_command],
        ?_, ?_⟩
      · intro s hs
        injection hs with hs
        subst hs
        refine ⟨by simp [run_command], ?_, ?_⟩
        · intro h
          simp [run_command, h]
        · intro h
          simp [run_command, h]
      · intro e he
        simp at he
  | error e =>
      refine ⟨by simp [run_command], by simp [run_command], by simp [run_command],
        ?_, ?_⟩
      · intro s hs
        simp at hs
      · intro f hf
        injection hf with hf
        subst hf
        simp [run_command]

/-- Witness for the amended C5 at a concrete successful launch. -/
theorem run_command_prints_witness :
    ("Return code: " ++ toString (2 : Int)) ∈
        (run_command ["x"] "d" (Except.ok ⟨2, "out", ""⟩)).1 ∧
      ("STDOUT:\n" ++ "out") ∈ (run_command ["x"] "d" (Except.ok ⟨2, "out", ""⟩)).1 :=
  have h := (run_command_prints ["x"] "d"
    (Except.ok ⟨2, "out", ""⟩)).2.2.2.1 ⟨2, "out", ""⟩ rfl
  ⟨h.1, h.2.1 (by decide)⟩

/-- Claim C9: every invocation of `run_command` prints the 50-dash separator
exactly once, as its last print event, on both the normal path and the
launch-failure path. -/
theorem run_command_separator_last (cmd : List String) (desc : String)
    (launch : Except String ProcOutcome) :
    (run_command cmd desc launch).1.getLast? = some sep ∧
      (run_command cmd desc launch).1.count sep = 1 := by
  cases launch with
  | ok r =>
      constructor
      · by_cases hs : r.stdout = "" <;> by_cases ht : r.stderr = "" <;>
          simp [run_command, hs, ht]
      · by_cases hs : r.stdout = "" <;> by_cases ht : r.stderr = "" <;>
          simp [run_command, hs, ht, List.count_cons, List.count_append,
            running_ne_sep desc, command_ne_sep (String.intercalate " " cmd),
            returncode_ne_sep (toString r.returncode),
            stdout_ne_sep r.stdout, stderr_ne_sep r.stderr]
  | error e =>
      constructor
      · simp [run_command]
      · simp [run_command, List.count_cons, List.count_append,
          running_ne_sep desc, command_ne_sep (String.intercalate " " cmd),
          error_ne_sep e]

/-- Claim C10: the `STDOUT:` (respectively `STDERR:`) section is printed by
`run_command` exactly when the captured stream is non-empty: an empty stream
produces no print event starting with that header, a non-empty one produces
one. -/
theorem run_command_stream_sections (cmd : List String) (desc : String)
    (r : ProcOutcome) :
    (r.stdout = "" →
      hasLineStarting "STDOUT:" (run_command cmd desc (Except.ok r)).1 = false) ∧
    (r.stdout ≠ "" →
      hasLineStarting "STDOUT:" (run_command cmd desc (Except.ok r)).1 = true) ∧
    (r.stderr = "" →
      hasLineStarting "STDERR:" (run_command cmd desc (Except.ok r)).1 = false) ∧
    (r.stderr ≠ "" →
      hasLineStarting "STDERR:" (run_command cmd desc (Except.ok r)).1 = true) := by
  have a1 : startsWithChars "STDOUT:".data ("Running: " ++ desc).data = false :=
    sw_lit_false _ _ _ (by decide)
  have a2 : startsWithChars "STDOUT:".data
      ("Command: " ++ String.intercalate " " cmd).data = false :=
    sw_lit_false _ _ _ (by decide)
  have a3 : startsWithChars "STDOUT:".data
      ("Return code: " ++ toString r.returncode).data = false :=
    sw_lit_false _ _ _ (by decide)
  have a4 : startsWithChars "STDOUT:".data ("STDERR:\n" ++ r.stderr).data = false :=
    sw_lit_false _ _ _ (by decide)
  have a5 : startsWithChars "STDOUT:".data sep.data = false := by decide
  have a6 : startsWithChars "STDOUT:".data ("STDOUT:\n" ++ r.stdout).data = true :=
    sw_lit_true _ _ _ (by decide)
  have b1 : startsWithChars "STDERR:".data ("Running: " ++ desc).data = false :=
    sw_lit_false _ _ _ (by decide)
  have b2 : startsWithChars "STDERR:".data
      ("Command: " ++ String.intercalate " " cmd).data = false :=
    sw_lit_false _ _ _ (by decide)
  have b3 : startsWithChars "STDERR:".data
      ("Return code: " ++ toString r.returncode).data = false :=
    sw_lit_false _ _ _ (by decide)
  have b4 : startsWithChars "STDERR:".data ("STDOUT:\n" ++ r.stdout).data = false :=
    sw_lit_false _ _ _ (by decide)
  have b5 : startsWithChars "STDERR:".data sep.data = false := by decide
  have b6 : startsWithChars "STDERR:".data ("STDERR:\n" ++ r.stderr).data = true :=
    sw_lit_true _ _ _ (by decide)
  simp only [String.data_append] at a1 a2 a3 a4 a6 b1 b2 b3 b4 b6
  simp at a1 a2 a3 a4 a5 a6 b1 b2 b3 b4 b5 b6
  refine ⟨?_, ?_, ?_, ?_⟩
  · intro hs
    by_cases ht : r.stderr = "" <;>
      simp [run_command, hasLineStarting, hs, ht, a1, a2, a3, a4, a5]
  · intro hs
    by_cases ht : r.stderr = "" <;>
      simp [run_command, hasLineStarting, hs, ht, a6]
  · intro ht
    by_cases hs : r.stdout = "" <;>
      simp [run_command, hasLineStarting, hs, ht, b1, b2, b3, b4, b5]
  · intro ht
    by_cases hs : r.stdout = "" <;>
      simp [run_command, hasLineStarting, hs, ht, b6]

/-- Witness for C10: a run with empty stdout and non-empty stderr prints no
`STDOUT:` section and does print a `STDERR:` section. -/
theorem run_command_stream_sections_witness :
    hasLineStarting "STDOUT:"
        (run_command ["x"] "d" (Except.ok ⟨0, "", "err"⟩)).1 = false ∧
      hasLineStarting "STDERR:"
        (run_command ["x"] "d" (Except.ok ⟨0, "", "err"⟩)).1 = true :=
  ⟨(run_command_stream_sections ["x"] "d" ⟨0, "", "err"⟩).1 rfl,
   (run_command_stream_sections ["x"] "d" ⟨0, "", "err"⟩).2.2.2 (by decide)⟩

/-- Claim C6 counterexample: in the end-to-end scenario with command list
`[(["true"], "A"), (["false"], "B")]`, no print event of the whole run is
the exact line `"PASS: A"` (the script prints `"✓ PASS: A"`, with a marker
symbol before the word `PASS`). -/
theorem summary_plain_pass_line_cex :
    "PASS: A" ∉ (mainWith [(["true"], "A"), (["false"], "B")] "/w" pairEnv).1 := by
  decide

/-- Claim C6 as amended: in the end-to-end scenario with command list
`[(["true"], "A"), (["false"], "B")]`, the final summary block is exactly
the header lines followed by the line `"✓ PASS: A"` and then the line
`"✗ FAIL: B"` (pass and fail markers carry the `✓`/`✗` symbols), and the
process exits with status 0. -/
theorem summary_marked_pass_fail (cwd : String) :
    "✓ PASS: A" ∈ (mainWith [(["true"], "A"), (["false"], "B")] cwd pairEnv).1 ∧
    "✗ FAIL: B" ∈ (mainWith [(["true"], "A"), (["false"], "B")] cwd pairEnv).1 ∧
    summaryLines (runLoop pairEnv [(["true"], "A"), (["false"], "B")]).2 =
      ["\nSUMMARY:", eqBar, "✓ PASS: A", "✗ FAIL: B"] ∧
    (mainWith [(["true"], "A"), (["false"], "B")] cwd pairEnv).2 = 0 := by
  refine ⟨?_, ?_, by decide, rfl⟩ <;>
    simp [mainWith, runLoop, run_command, summaryLines, pairEnv]
